import Mathlib

/-!
Verification of the review-runner tracking server.

The development shallowly embeds the tracking endpoint `GET /:uuid`
(`src/unnamed/part_000`) and the Prisma client bootstrap
(`src/lib/prisma.js`) as pure Lean functions:

* the Data Store is an explicit `Store` value (lists of review requests,
  customers, businesses and events);
* each fallible database operation is parameterised by a `DbBehavior`
  recording, per operation, whether it raises and with which message —
  `none` models a successful operation, `some msg` a rejected promise;
* the handler returns a `HandlerResult` carrying the HTTP status, the
  rendered page (as a symbolic `Page` value), the post-state of the
  store, the list of Data Store operations issued, and the log entries
  emitted;
* JavaScript truthiness on nullable strings (`a || b`, where both `null`,
  `undefined` and the empty string are falsy) is modelled by `jsOrStr` /
  `jsOrOptStr` over `Option String`.

Timestamps are abstract naturals: `startTime` models the `Date.now()`
captured on entry, `now` the clock value at the mutation, so the
`responseTime` fields become `now - startTime`.
-/

namespace Tracking

structure Customer where
  id : Nat
  first_name : String
  last_name : String
  email : String
  deriving DecidableEq

structure Business where
  id : Nat
  name : String
  google_review_url : Option String
  website : Option String
  deriving DecidableEq

/-- The `click_metadata` JSON object written on a first click
(`src/unnamed/part_000`, first-click transaction). -/
structure ClickMetadata where
  userAgent : String
  ipAddress : String
  referer : Option String
  timestamp : Nat
  trackingServer : Bool
  responseTime : Nat
  deriving DecidableEq

structure ReviewRequest where
  id : Nat
  tracking_uuid : String
  status : String
  is_active : Bool
  clicked_at : Option Nat
  click_metadata : Option ClickMetadata
  review_url : Option String
  customer_id : Nat
  business_id : Nat
  deriving DecidableEq

/-- The `metadata` JSON object of an inserted Event.  Fields that only one
of the two insert sites populates are `Option`s (`none` models an absent
JSON key). -/
structure EventMetadata where
  trackingUuid : String
  customerEmail : Option String
  userAgent : String
  ipAddress : String
  referer : Option String
  trackingServer : Bool
  isFirstClick : Bool
  repeatClick : Option Bool
  previousClickAt : Option Nat
  deriving DecidableEq

structure Event where
  business_id : Nat
  review_request_id : Nat
  type : String
  source : String
  description : String
  metadata : EventMetadata
  deriving DecidableEq

/-- The Data Store state: the tables the handler reads and writes. -/
structure Store where
  reviewRequests : List ReviewRequest
  customers : List Customer
  businesses : List Business
  events : List Event
  deriving DecidableEq

/-- Review-request rows have pairwise distinct primary keys (the Data
Store enforces this; the handler updates `where: { id: ... }`). -/
def Store.uniqueIds (s : Store) : Prop :=
  (s.reviewRequests.map (fun r => r.id)).Nodup

instance (s : Store) : Decidable s.uniqueIds := by
  unfold Store.uniqueIds; infer_instance

/-- The request metadata the handler consumes: the `:uuid` path segment
and the headers / transport IP used for client tracking. -/
structure Req where
  uuid : String
  userAgentHeader : Option String
  xForwardedFor : Option String
  xRealIp : Option String
  reqIp : Option String
  referer : Option String
  deriving DecidableEq

/-- Per-operation failure behaviour of the Data Store client: `none`
means the call succeeds, `some msg` that it rejects with `msg`.
`updateError`/`eventCreateError` are the two calls inside the first-click
`$transaction`; `repeatEventError` is the standalone `event.create`. -/
structure DbBehavior where
  lookupError : Option String
  updateError : Option String
  eventCreateError : Option String
  repeatEventError : Option String
  deriving DecidableEq

/-- All Data Store operations succeed. -/
def dbAllOk : DbBehavior :=
  { lookupError := none, updateError := none, eventCreateError := none,
    repeatEventError := none }

/-- A rendered response body: either `generateErrorPage` applied to its
three strings, or `generateRedirectPage` applied to business name,
resolved redirect URL, customer first name and the first-click flag. -/
inductive Page where
  | errorPage (title : String) (message : String) (submessage : String)
  | redirectPage (businessName : String) (redirectUrl : String)
      (customerFirstName : String) (isFirstClick : Bool)
  deriving DecidableEq

/-- A Data Store operation issued by the handler (in order). -/
inductive DbOp where
  | findUnique (uuid : String)
  | txUpdateReviewRequest (id : Nat)
  | txCreateEvent
  | createEvent
  deriving DecidableEq

/-- The log entries the handler emits, with the structured fields each
call site passes to the logger. -/
inductive LogEntry where
  | trackingRequestReceived (uuid : String)
  | invalidUuidFormat (uuid : String)
  | invalidTrackingUuid (uuid : String) (ipAddress : String)
  | inactiveLinkAccessed (uuid : String) (status : String) (isActive : Bool)
  | firstClickTracked (requestId : Nat) (responseTime : Nat)
  | repeatClickDetected (requestId : Nat) (previousClickAt : Option Nat)
  | redirecting (requestId : Nat) (redirectUrl : String) (responseTime : Nat)
  | trackingError (uuid : String) (errorMessage : String) (responseTime : Nat)
  deriving DecidableEq

structure HandlerResult where
  status : Nat
  body : Page
  store : Store
  dbOps : List DbOp
  logs : List LogEntry
  deriving DecidableEq

/-- JavaScript `a || b` where `a` is a nullable string and `b` a string:
`null`/`undefined` and the empty string are falsy. -/
def jsOrStr (a : Option String) (b : String) : String :=
  match a with
  | some s => if s = "" then b else s
  | none => b

/-- JavaScript `a || b` on two nullable strings. -/
def jsOrOptStr (a : Option String) (b : Option String) : Option String :=
  match a with
  | some s => if s = "" then b else some s
  | none => b

/-- `req.get('User-Agent') || 'unknown'`. -/
def userAgentOf (req : Req) : String :=
  jsOrStr req.userAgentHeader "unknown"

/-- `req.get('X-Forwarded-For') || req.get('X-Real-IP') || req.ip || 'unknown'`. -/
def ipAddressOf (req : Req) : String :=
  jsOrStr (jsOrOptStr req.xForwardedFor (jsOrOptStr req.xRealIp req.reqIp)) "unknown"

/-- JavaScript truthiness of a nullable string. -/
def truthy : Option String → Bool
  | some s => s != ""
  | none => false

/-- `businesses.google_review_url || review_url || businesses.website ||
'https://google.com/maps'`. -/
def resolveRedirectUrl (g : Option String) (r : Option String) (w : Option String) : String :=
  jsOrStr g (jsOrStr r (jsOrStr w "https://google.com/maps"))

/-- The generic page sent from the handler's `catch` block. -/
def genericErrorBody : Page :=
  Page.errorPage "Something Went Wrong"
    "We encountered an error processing your request."
    "Please try again later or contact the business directly."

/-- The page sent when the identifier fails length validation. -/
def invalidLinkBody : Page :=
  Page.errorPage "Invalid Link"
    "This tracking link appears to be malformed."
    "Please check the link and try again."

/-- The page sent when no review request matches the identifier. -/
def linkNotFoundBody : Page :=
  Page.errorPage "Link Not Found"
    "This review link is invalid or has expired."
    "If you believe this is an error, please contact the business directly."

/-- The page sent for a deactivated or opted-out review request. -/
def linkInactiveBody : Page :=
  Page.errorPage "Link Inactive"
    "This review request is no longer active."
    "You may have already submitted your review or opted out of communications."

/-- The `click_metadata` value written by the first-click update. -/
def mkClickMetadata (req : Req) (startTime : Nat) (now : Nat) : ClickMetadata :=
  { userAgent := userAgentOf req
    ipAddress := ipAddressOf req
    referer := req.referer
    timestamp := now
    trackingServer := true
    responseTime := now - startTime }

/-- The review-request row after the first-click update. -/
def applyFirstClick (rr : ReviewRequest) (req : Req) (startTime : Nat) (now : Nat) :
    ReviewRequest :=
  { rr with
    clicked_at := some now
    status := "CLICKED"
    click_metadata := some (mkClickMetadata req startTime now) }

/-- The Event inserted inside the first-click transaction. -/
def mkFirstClickEvent (rr : ReviewRequest) (cust : Customer) (req : Req) : Event :=
  { business_id := rr.business_id
    review_request_id := rr.id
    type := "REQUEST_CLICKED"
    source := "tracking_server"
    description := "Review link clicked by " ++ cust.first_name ++ " " ++ cust.last_name
    metadata :=
      { trackingUuid := req.uuid
        customerEmail := some cust.email
        userAgent := userAgentOf req
        ipAddress := ipAddressOf req
        referer := req.referer
        trackingServer := true
        isFirstClick := true
        repeatClick := none
        previousClickAt := none } }

/-- The Event inserted for a repeat click. -/
def mkRepeatEvent (rr : ReviewRequest) (cust : Customer) (req : Req) : Event :=
  { business_id := rr.business_id
    review_request_id := rr.id
    type := "REQUEST_CLICKED"
    source := "tracking_server"
    description := "Repeat click by " ++ cust.first_name ++ " " ++ cust.last_name
    metadata :=
      { trackingUuid := req.uuid
        customerEmail := none
        userAgent := userAgentOf req
        ipAddress := ipAddressOf req
        referer := req.referer
        trackingServer := true
        isFirstClick := false
        repeatClick := some true
        previousClickAt := rr.clicked_at } }

/-- The tracking handler `app.get('/:uuid')` of `src/unnamed/part_000`,
as a pure function of the request, the Data Store behaviour and state,
and the two clock readings.  Every `return res.status(...).send(...)` of
the source becomes one `HandlerResult`; a rejected database promise takes
the `catch` path (HTTP 500, `trackingError` log), and the first-click
`$transaction` commits both writes or neither. -/
def handleTracking (req : Req) (db : DbBehavior) (store : Store)
    (startTime : Nat) (now : Nat) : HandlerResult :=
  let uuid := req.uuid
  let baseLogs := [LogEntry.trackingRequestReceived uuid]
  if uuid = "" ∨ uuid.length < 10 then
    { status := 400
      body := invalidLinkBody
      store := store
      dbOps := []
      logs := baseLogs ++ [LogEntry.invalidUuidFormat uuid] }
  else
    match db.lookupError with
    | some e =>
      { status := 500
        body := genericErrorBody
        store := store
        dbOps := [DbOp.findUnique uuid]
        logs := baseLogs ++ [LogEntry.trackingError uuid e (now - startTime)] }
    | none =>
      match store.reviewRequests.find? (fun r => r.tracking_uuid == uuid) with
      | none =>
        { status := 404
          body := linkNotFoundBody
          store := store
          dbOps := [DbOp.findUnique uuid]
          logs := baseLogs ++ [LogEntry.invalidTrackingUuid uuid (ipAddressOf req)] }
      | some rr =>
        if ¬ rr.is_active ∨ rr.status = "OPTED_OUT" then
          { status := 410
            body := linkInactiveBody
            store := store
            dbOps := [DbOp.findUnique uuid]
            logs := baseLogs ++ [LogEntry.inactiveLinkAccessed uuid rr.status rr.is_active] }
        else
          match store.customers.find? (fun c => c.id == rr.customer_id),
                store.businesses.find? (fun b => b.id == rr.business_id) with
          | some cust, some biz =>
            if rr.clicked_at.isNone then
              match db.updateError with
              | some e =>
                { status := 500
                  body := genericErrorBody
                  store := store
                  dbOps := [DbOp.findUnique uuid, DbOp.txUpdateReviewRequest rr.id]
                  logs := baseLogs ++ [LogEntry.trackingError uuid e (now - startTime)] }
              | none =>
                match db.eventCreateError with
                | some e =>
                  { status := 500
                    body := genericErrorBody
                    store := store
                    dbOps := [DbOp.findUnique uuid, DbOp.txUpdateReviewRequest rr.id,
                              DbOp.txCreateEvent]
                    logs := baseLogs ++ [LogEntry.trackingError uuid e (now - startTime)] }
                | none =>
                  let updated := applyFirstClick rr req startTime now
                  let ev := mkFirstClickEvent rr cust req
                  let redirectUrl :=
                    resolveRedirectUrl biz.google_review_url rr.review_url biz.website
                  { status := 200
                    body := Page.redirectPage biz.name redirectUrl cust.first_name true
                    store := { store with
                      reviewRequests :=
                        store.reviewRequests.map (fun r => if r.id = rr.id then updated else r)
                      events := store.events ++ [ev] }
                    dbOps := [DbOp.findUnique uuid, DbOp.txUpdateReviewRequest rr.id,
                              DbOp.txCreateEvent]
                    logs := baseLogs ++
                      [LogEntry.firstClickTracked rr.id (now - startTime),
                       LogEntry.redirecting rr.id redirectUrl (now - startTime)] }
            else
              match db.repeatEventError with
              | some e =>
                { status := 500
                  body := genericErrorBody
                  store := store
                  dbOps := [DbOp.findUnique uuid, DbOp.createEvent]
                  logs := baseLogs ++ [LogEntry.trackingError uuid e (now - startTime)] }
              | none =>
                let ev := mkRepeatEvent rr cust req
                let redirectUrl :=
                  resolveRedirectUrl biz.google_review_url rr.review_url biz.website
                { status := 200
                  body := Page.redirectPage biz.name redirectUrl cust.first_name false
                  store := { store with events := store.events ++ [ev] }
                  dbOps := [DbOp.findUnique uuid, DbOp.createEvent]
                  logs := baseLogs ++
                    [LogEntry.repeatClickDetected rr.id rr.clicked_at,
                     LogEntry.redirecting rr.id redirectUrl (now - startTime)] }
          | _, _ =>
            { status := 500
              body := genericErrorBody
              store := store
              dbOps := [DbOp.findUnique uuid]
              logs := baseLogs ++
                [LogEntry.trackingError uuid "TypeError" (now - startTime)] }

/-- `n` further invocations of the handler with the same request,
behaviour and clock readings, threading the store. -/
def iterateClicks (req : Req) (db : DbBehavior) (startTime : Nat) (now : Nat) :
    Nat → Store → Store
  | 0, s => s
  | Nat.succ k, s =>
      iterateClicks req db startTime now k (handleTracking req db s startTime now).store

/-- Model of a Prisma client as the settled outcome of each operation the
tracking server uses (`src/lib/prisma.js`): `Except.ok` a resolved
promise, `Except.error msg` a rejection with `msg`. -/
structure PrismaClientModel where
  queryRaw : Except String Unit
  reviewRequestFindUnique : Except String Unit
  reviewRequestUpdate : Except String Unit
  eventCreate : Except String Unit
  transactionRun : Except String Unit

/-- The message of the mock client's rejections. -/
def prismaUnavailableMsg : String := "Prisma client unavailable"

/-- The mock client of `src/lib/prisma.js`: every operation rejects with
`Error('Prisma client unavailable')`. -/
def mockPrisma : PrismaClientModel :=
  { queryRaw := Except.error prismaUnavailableMsg
    reviewRequestFindUnique := Except.error prismaUnavailableMsg
    reviewRequestUpdate := Except.error prismaUnavailableMsg
    eventCreate := Except.error prismaUnavailableMsg
    transactionRun := Except.error prismaUnavailableMsg }

/-- `if (!prisma) { ... prisma = mock }`: the client finally exported —
the constructed client when creation succeeded, else the mock. -/
def installPrisma (created : Option PrismaClientModel) : PrismaClientModel :=
  match created with
  | some p => p
  | none => mockPrisma

/-- The rejection message of an operation, `none` when it resolves. -/
def errOf (x : Except String Unit) : Option String :=
  match x with
  | Except.error e => some e
  | Except.ok _ => none

/-- The handler-level failure behaviour induced by a client model. -/
def dbBehaviorOf (p : PrismaClientModel) : DbBehavior :=
  { lookupError := errOf p.reviewRequestFindUnique
    updateError := errOf p.reviewRequestUpdate
    eventCreateError := errOf p.eventCreate
    repeatEventError := errOf p.eventCreate }

/-- The claim's wording for the recorded userAgent: the User-Agent header
value, or "unknown" when the header is absent. -/
def claimUserAgent (req : Req) : String :=
  match req.userAgentHeader with
  | some s => s
  | none => "unknown"

/-- The claim's wording for the recorded ipAddress: the first present of
X-Forwarded-For, X-Real-IP and the transport client IP, or "unknown"
when all three are absent. -/
def claimIpAddress (req : Req) : String :=
  match req.xForwardedFor with
  | some s => s
  | none =>
    match req.xRealIp with
    | some s => s
    | none =>
      match req.reqIp with
      | some s => s
      | none => "unknown"

/-- First value of the list that is present and non-empty. -/
def firstNonEmpty : List (Option String) → Option String
  | [] => none
  | a :: t =>
    match a with
    | some s => if s = "" then firstNonEmpty t else some s
    | none => firstNonEmpty t

/-- Amended wording for the recorded userAgent: the User-Agent header
when present and non-empty, else "unknown". -/
def claimUserAgentAmended (req : Req) : String :=
  match req.userAgentHeader with
  | some s => if s = "" then "unknown" else s
  | none => "unknown"

/-- Amended wording for the recorded ipAddress: the first present and
non-empty of X-Forwarded-For, X-Real-IP and the transport client IP,
else "unknown". -/
def claimIpAddressAmended (req : Req) : String :=
  match firstNonEmpty [req.xForwardedFor, req.xRealIp, req.reqIp] with
  | some s => s
  | none => "unknown"

/-- Request whose X-Forwarded-For header is present but empty while
X-Real-IP carries a value. -/
def reqEmptyXff : Req :=
  { uuid := "uuid-fresh-0001", userAgentHeader := some "TestAgent",
    xForwardedFor := some "", xRealIp := some "198.51.100.9",
    reqIp := some "203.0.113.7", referer := none }

/-- Sample customer for instantiating theorems on concrete data. -/
def custA : Customer :=
  { id := 1, first_name := "Ada", last_name := "Lovelace", email := "ada@example.com" }

/-- Sample business with both URL fields populated. -/
def bizA : Business :=
  { id := 2, name := "Acme", google_review_url := some "https://g.example/review",
    website := some "https://acme.example" }

/-- Sample active, never-clicked review request. -/
def rrFresh : ReviewRequest :=
  { id := 3, tracking_uuid := "uuid-fresh-0001", status := "SENT", is_active := true,
    clicked_at := none, click_metadata := none, review_url := some "https://r.example",
    customer_id := 1, business_id := 2 }

/-- Sample review request already clicked at time 100. -/
def rrClicked : ReviewRequest :=
  { rrFresh with
    id := 4
    tracking_uuid := "uuid-clicked-01"
    status := "CLICKED"
    clicked_at := some 100 }

/-- Sample deactivated review request. -/
def rrInactive : ReviewRequest :=
  { rrFresh with
    id := 5
    tracking_uuid := "uuid-inactive-1"
    is_active := false }

/-- Sample store holding the three review requests above. -/
def storeA : Store :=
  { reviewRequests := [rrFresh, rrClicked, rrInactive], customers := [custA],
    businesses := [bizA], events := [] }

/-- Sample request for a given identifier. -/
def reqFor (uuid : String) : Req :=
  { uuid := uuid, userAgentHeader := some "TestAgent", xForwardedFor := none,
    xRealIp := none, reqIp := some "203.0.113.7", referer := none }

theorem valid_length_cond {u : String} (h : 10 ≤ u.length) :
    ¬(u = "" ∨ u.length < 10) := by
  rintro (h1 | h2)
  · subst h1; exact absurd h (by decide)
  · omega

theorem mem_map_update_of_ne {l : List ReviewRequest} {r : ReviewRequest}
    (u : ReviewRequest) (i : Nat) (hmem : r ∈ l) (hne : r.id ≠ i) :
    r ∈ l.map (fun x => if x.id = i then u else x) := by
  have h := List.mem_map_of_mem (fun x => if x.id = i then u else x) hmem
  simpa [if_neg hne] using h

theorem find?_map_update {uuid : String} {u : ReviewRequest} :
    ∀ {l : List ReviewRequest} {rr : ReviewRequest},
      l.Pairwise (fun a b => a.id ≠ b.id) →
      l.find? (fun r => r.tracking_uuid == uuid) = some rr →
      u.tracking_uuid = uuid →
      (l.map (fun r => if r.id = rr.id then u else r)).find?
        (fun r => r.tracking_uuid == uuid) = some u := by
  intro l
  induction l with
  | nil => intro rr _ hfind _; simp at hfind
  | cons a t ih =>
    intro rr hpw hfind hu
    rw [List.pairwise_cons] at hpw
    cases hp : (a.tracking_uuid == uuid) with
    | true =>
      simp only [List.find?, hp] at hfind
      cases hfind
      simp [List.find?, hu]
    | false =>
      simp only [List.find?, hp] at hfind
      have hmem := List.mem_of_find?_eq_some hfind
      have hne : a.id ≠ rr.id := hpw.1 rr hmem
      have ha : ((fun r => if r.id = rr.id then u else r) a) = a := by simp [if_neg hne]
      simp only [List.map_cons, ha, List.find?, hp]
      exact ih hpw.2 hfind hu

/-- C5: an identifier that is empty or shorter than 10 characters is
answered with HTTP 400 and the Invalid Link page before any Data Store
call (`dbOps = []`, store untouched); an identifier of length at least 10
passes validation with no further format check — the lookup is then the
first Data Store operation issued. -/
theorem short_id_validation_no_store_calls (req : Req) (db : DbBehavior)
    (store : Store) (startTime now : Nat) :
    (req.uuid.length < 10 →
      handleTracking req db store startTime now =
        { status := 400, body := invalidLinkBody, store := store, dbOps := [],
          logs := [LogEntry.trackingRequestReceived req.uuid,
                   LogEntry.invalidUuidFormat req.uuid] }) ∧
    (10 ≤ req.uuid.length →
      (handleTracking req db store startTime now).dbOps.head? =
        some (DbOp.findUnique req.uuid)) := by
  constructor
  · intro h
    simp [handleTracking, h]
  · intro h
    have hne := valid_length_cond h
    simp only [handleTracking, if_neg hne]
    repeat' split
    all_goals rfl

/-- C5 witness: the three-character identifier "abc" from the spec's
concrete scenario is rejected with 400 and an empty operation list. -/
theorem short_id_validation_no_store_calls_instance :
    (reqFor "abc").uuid.length < 10 ∧
      handleTracking (reqFor "abc") dbAllOk storeA 0 5 =
        { status := 400, body := invalidLinkBody, store := storeA, dbOps := [],
          logs := [LogEntry.trackingRequestReceived "abc",
                   LogEntry.invalidUuidFormat "abc"] } :=
  ⟨by decide,
   (short_id_validation_no_store_calls (reqFor "abc") dbAllOk storeA 0 5).1 (by decide)⟩

/-- C6: an identifier of valid length that matches no review request is
answered with HTTP 404 and the Link Not Found page; the lookup is the
only Data Store operation issued and the store is unchanged, whatever the
failure behaviour of the (never reached) write operations. -/
theorem unknown_id_not_found_no_writes (req : Req) (ue ece ree : Option String)
    (store : Store) (startTime now : Nat)
    (hlen : 10 ≤ req.uuid.length)
    (hfind : store.reviewRequests.find? (fun r => r.tracking_uuid == req.uuid) = none) :
    handleTracking req ⟨none, ue, ece, ree⟩ store startTime now =
      { status := 404, body := linkNotFoundBody, store := store,
        dbOps := [DbOp.findUnique req.uuid],
        logs := [LogEntry.trackingRequestReceived req.uuid,
                 LogEntry.invalidTrackingUuid req.uuid (ipAddressOf req)] } := by
  have hne := valid_length_cond hlen
  simp [handleTracking, if_neg hne, hfind]

/-- C6 witness: the spec's concrete scenario — an identifier passing the
length check but absent from the store — yields the 404 result. -/
theorem unknown_id_not_found_no_writes_instance :
    (10 ≤ ("not-a-real-uuid" : String).length ∧
      storeA.reviewRequests.find? (fun r => r.tracking_uuid == "not-a-real-uuid") = none) ∧
    handleTracking (reqFor "not-a-real-uuid") dbAllOk storeA 0 5 =
      { status := 404, body := linkNotFoundBody, store := storeA,
        dbOps := [DbOp.findUnique "not-a-real-uuid"],
        logs := [LogEntry.trackingRequestReceived "not-a-real-uuid",
                 LogEntry.invalidTrackingUuid "not-a-real-uuid"
                   (ipAddressOf (reqFor "not-a-real-uuid"))] } :=
  ⟨⟨by decide, by decide⟩,
   unknown_id_not_found_no_writes (reqFor "not-a-real-uuid") none none none storeA 0 5
     (by decide) (by decide)⟩

/-- C2: a review request that is deactivated or opted out is answered
with HTTP 410 and the Link Inactive page before any mutation: the lookup
is the only Data Store operation, the store is returned unchanged, with
no hypothesis on `clicked_at` and whatever the failure behaviour of the
(never reached) write operations. -/
theorem inactive_request_gate_no_writes (req : Req) (ue ece ree : Option String)
    (store : Store) (startTime now : Nat) (rr : ReviewRequest)
    (hlen : 10 ≤ req.uuid.length)
    (hfind : store.reviewRequests.find? (fun r => r.tracking_uuid == req.uuid) = some rr)
    (hgate : rr.is_active = false ∨ rr.status = "OPTED_OUT") :
    handleTracking req ⟨none, ue, ece, ree⟩ store startTime now =
      { status := 410, body := linkInactiveBody, store := store,
        dbOps := [DbOp.findUnique req.uuid],
        logs := [LogEntry.trackingRequestReceived req.uuid,
                 LogEntry.inactiveLinkAccessed req.uuid rr.status rr.is_active] } := by
  have hne := valid_length_cond hlen
  have hcond : (¬ rr.is_active ∨ rr.status = "OPTED_OUT") := by
    rcases hgate with h | h
    · left; simp [h]
    · right; exact h
  simp [handleTracking, if_neg hne, hfind]
  intro h1 h2
  rcases hcond with h | h
  · exact absurd h1 h
  · exact absurd h h2

/-- C2 witness: the sample deactivated request, with `clicked_at = none`,
gets the 410 result with zero writes. -/
theorem inactive_request_gate_no_writes_instance :
    (10 ≤ ("uuid-inactive-1" : String).length ∧
      storeA.reviewRequests.find? (fun r => r.tracking_uuid == "uuid-inactive-1") =
        some rrInactive ∧
      rrInactive.is_active = false) ∧
    handleTracking (reqFor "uuid-inactive-1") dbAllOk storeA 0 5 =
      { status := 410, body := linkInactiveBody, store := storeA,
        dbOps := [DbOp.findUnique "uuid-inactive-1"],
        logs := [LogEntry.trackingRequestReceived "uuid-inactive-1",
                 LogEntry.inactiveLinkAccessed "uuid-inactive-1" rrInactive.status
                   rrInactive.is_active] } :=
  ⟨⟨by decide, by decide, by decide⟩,
   inactive_request_gate_no_writes (reqFor "uuid-inactive-1") none none none storeA 0 5
     rrInactive (by decide) (by decide) (Or.inl (by decide))⟩

/-- C1: on an active review request with `clicked_at` null, the handler
commits exactly one review-request update — status set to CLICKED,
clicked_at set to the current clock value, click_metadata recorded — and
exactly one Event insert with `isFirstClick = true`, leaving every other
row untouched; the response is HTTP 200 with the redirect page carrying
the first-click badge; and the two writes are atomic: if the Event insert
inside the transaction fails, the whole store is left unchanged. -/
theorem firstClick_transaction_atomic (req : Req) (store : Store)
    (startTime now : Nat) (rr : ReviewRequest) (cust : Customer) (biz : Business)
    (hids : store.uniqueIds)
    (hlen : 10 ≤ req.uuid.length)
    (hfind : store.reviewRequests.find? (fun r => r.tracking_uuid == req.uuid) = some rr)
    (hact : rr.is_active = true)
    (hopt : rr.status ≠ "OPTED_OUT")
    (hclick : rr.clicked_at = none)
    (hcust : store.customers.find? (fun c => c.id == rr.customer_id) = some cust)
    (hbiz : store.businesses.find? (fun b => b.id == rr.business_id) = some biz) :
    ((handleTracking req dbAllOk store startTime now).status = 200 ∧
     (handleTracking req dbAllOk store startTime now).body =
       Page.redirectPage biz.name
         (resolveRedirectUrl biz.google_review_url rr.review_url biz.website)
         cust.first_name true ∧
     (handleTracking req dbAllOk store startTime now).store.events =
       store.events ++ [mkFirstClickEvent rr cust req] ∧
     (mkFirstClickEvent rr cust req).metadata.isFirstClick = true ∧
     (handleTracking req dbAllOk store startTime now).store.reviewRequests.find?
       (fun r => r.tracking_uuid == req.uuid) =
       some (applyFirstClick rr req startTime now) ∧
     (applyFirstClick rr req startTime now).status = "CLICKED" ∧
     (applyFirstClick rr req startTime now).clicked_at = some now ∧
     (applyFirstClick rr req startTime now).click_metadata =
       some (mkClickMetadata req startTime now) ∧
     (∀ r ∈ store.reviewRequests, r.id ≠ rr.id →
       r ∈ (handleTracking req dbAllOk store startTime now).store.reviewRequests)) ∧
    (∀ e : String,
      (handleTracking req
          { dbAllOk with eventCreateError := some e } store startTime now).store = store ∧
      (handleTracking req
          { dbAllOk with eventCreateError := some e } store startTime now).status = 500) := by
  have hne := valid_length_cond hlen
  have hpw : store.reviewRequests.Pairwise (fun a b => a.id ≠ b.id) := by
    have h := hids
    unfold Store.uniqueIds at h
    rw [List.Nodup, List.pairwise_map] at h
    exact h
  have huuid : rr.tracking_uuid = req.uuid := by
    have h := List.find?_some hfind
    simpa using h
  refine ⟨⟨?_, ?_, ?_, ?_, ?_, ?_, ?_, ?_, ?_⟩, ?_⟩
  · simp [handleTracking, if_neg hne, hfind, hact, hopt, hcust, hbiz, hclick, dbAllOk]
  · simp [handleTracking, if_neg hne, hfind, hact, hopt, hcust, hbiz, hclick, dbAllOk]
  · simp [handleTracking, if_neg hne, hfind, hact, hopt, hcust, hbiz, hclick, dbAllOk]
  · rfl
  · have hred :
        (handleTracking req dbAllOk store startTime now).store.reviewRequests =
          store.reviewRequests.map
            (fun r => if r.id = rr.id then applyFirstClick rr req startTime now else r) := by
      simp [handleTracking, if_neg hne, hfind, hact, hopt, hcust, hbiz, hclick, dbAllOk]
    rw [hred]
    exact find?_map_update hpw hfind (by simp [applyFirstClick, huuid])
  · rfl
  · rfl
  · rfl
  · intro r hmem hne2
    have hred :
        (handleTracking req dbAllOk store startTime now).store.reviewRequests =
          store.reviewRequests.map
            (fun r => if r.id = rr.id then applyFirstClick rr req startTime now else r) := by
      simp [handleTracking, if_neg hne, hfind, hact, hopt, hcust, hbiz, hclick, dbAllOk]
    rw [hred]
    exact mem_map_update_of_ne _ _ hmem hne2
  · intro e
    constructor
    · simp [handleTracking, if_neg hne, hfind, hact, hopt, hcust, hbiz, hclick, dbAllOk]
    · simp [handleTracking, if_neg hne, hfind, hact, hopt, hcust, hbiz, hclick, dbAllOk]

/-- C1 witness: the sample fresh request commits the update and the
first-click event at clock value 5, and the event-insert failure leaves
the store unchanged. -/
theorem firstClick_transaction_atomic_instance :
    (storeA.uniqueIds ∧ 10 ≤ ("uuid-fresh-0001" : String).length ∧
     storeA.reviewRequests.find? (fun r => r.tracking_uuid == "uuid-fresh-0001") =
       some rrFresh ∧
     rrFresh.is_active = true ∧ rrFresh.clicked_at = none) ∧
    (handleTracking (reqFor "uuid-fresh-0001") dbAllOk storeA 0 5).status = 200 ∧
    (handleTracking (reqFor "uuid-fresh-0001") dbAllOk storeA 0 5).store.events =
      storeA.events ++ [mkFirstClickEvent rrFresh custA (reqFor "uuid-fresh-0001")] ∧
    (handleTracking (reqFor "uuid-fresh-0001")
        { dbAllOk with eventCreateError := some "boom" } storeA 0 5).store = storeA :=
  ⟨⟨by decide, by decide, by decide, by decide, by decide⟩,
   (firstClick_transaction_atomic (reqFor "uuid-fresh-0001") storeA 0 5 rrFresh custA bizA
     (by decide) (by decide) (by decide) (by decide) (by decide) (by decide) (by decide)
     (by decide)).1.1,
   (firstClick_transaction_atomic (reqFor "uuid-fresh-0001") storeA 0 5 rrFresh custA bizA
     (by decide) (by decide) (by decide) (by decide) (by decide) (by decide) (by decide)
     (by decide)).1.2.2.1,
   ((firstClick_transaction_atomic (reqFor "uuid-fresh-0001") storeA 0 5 rrFresh custA bizA
     (by decide) (by decide) (by decide) (by decide) (by decide) (by decide) (by decide)
     (by decide)).2 "boom").1⟩

/-- C3: for a successfully looked-up active review request — first or
repeat click — the 200 response carries the redirect page whose URL is
`resolveRedirectUrl`, the priority chain google_review_url → review_url →
website → hardcoded maps fallback where the first non-empty value wins;
the chain always resolves, yielding the fallback when all three fields
are null or empty. -/
theorem redirect_url_priority_chain (req : Req) (store : Store)
    (startTime now : Nat) (rr : ReviewRequest) (cust : Customer) (biz : Business)
    (hlen : 10 ≤ req.uuid.length)
    (hfind : store.reviewRequests.find? (fun r => r.tracking_uuid == req.uuid) = some rr)
    (hact : rr.is_active = true)
    (hopt : rr.status ≠ "OPTED_OUT")
    (hcust : store.customers.find? (fun c => c.id == rr.customer_id) = some cust)
    (hbiz : store.businesses.find? (fun b => b.id == rr.business_id) = some biz) :
    ((handleTracking req dbAllOk store startTime now).body =
       Page.redirectPage biz.name
         (resolveRedirectUrl biz.google_review_url rr.review_url biz.website)
         cust.first_name rr.clicked_at.isNone ∧
     (handleTracking req dbAllOk store startTime now).status = 200) ∧
    (∀ g r w : Option String,
      (∀ s, g = some s → s ≠ "" → resolveRedirectUrl g r w = s) ∧
      (truthy g = false → ∀ s, r = some s → s ≠ "" → resolveRedirectUrl g r w = s) ∧
      (truthy g = false → truthy r = false → ∀ s, w = some s → s ≠ "" →
        resolveRedirectUrl g r w = s) ∧
      (truthy g = false → truthy r = false → truthy w = false →
        resolveRedirectUrl g r w = "https://google.com/maps")) := by
  have hne := valid_length_cond hlen
  constructor
  · rcases hclick : rr.clicked_at with _ | prev
    · constructor
      · simp [handleTracking, if_neg hne, hfind, hact, hopt, hcust, hbiz, hclick, dbAllOk]
      · simp [handleTracking, if_neg hne, hfind, hact, hopt, hcust, hbiz, hclick, dbAllOk]
    · constructor
      · simp [handleTracking, if_neg hne, hfind, hact, hopt, hcust, hbiz, hclick, dbAllOk]
      · simp [handleTracking, if_neg hne, hfind, hact, hopt, hcust, hbiz, hclick, dbAllOk]
  · intro g r w
    refine ⟨?_, ?_, ?_, ?_⟩
    · rintro s rfl hs
      simp [resolveRedirectUrl, jsOrStr, hs]
    · intro hg s hr hs
      subst hr
      rcases g with _ | gs
      · simp [resolveRedirectUrl, jsOrStr, hs]
      · simp [truthy] at hg
        simp [resolveRedirectUrl, jsOrStr, hg, hs]
    · intro hg hr s hw hs
      subst hw
      rcases g with _ | gs <;> rcases r with _ | rs
      · simp [resolveRedirectUrl, jsOrStr, hs]
      · simp [truthy] at hr
        simp [resolveRedirectUrl, jsOrStr, hr, hs]
      · simp [truthy] at hg
        simp [resolveRedirectUrl, jsOrStr, hg, hs]
      · simp [truthy] at hg hr
        simp [resolveRedirectUrl, jsOrStr, hg, hr, hs]
    · intro hg hr hw
      rcases g with _ | gs <;> rcases r with _ | rs <;> rcases w with _ | ws <;>
        simp [truthy] at hg hr hw <;>
        simp [resolveRedirectUrl, jsOrStr, *]

/-- C3 witness: the sample active request resolves to the business's
google_review_url, and the all-empty chain resolves to the fallback. -/
theorem redirect_url_priority_chain_instance :
    (10 ≤ ("uuid-fresh-0001" : String).length ∧
     storeA.reviewRequests.find? (fun r => r.tracking_uuid == "uuid-fresh-0001") =
       some rrFresh) ∧
    (handleTracking (reqFor "uuid-fresh-0001") dbAllOk storeA 0 5).body =
      Page.redirectPage bizA.name
        (resolveRedirectUrl bizA.google_review_url rrFresh.review_url bizA.website)
        custA.first_name rrFresh.clicked_at.isNone ∧
    resolveRedirectUrl (some "") none none = "https://google.com/maps" :=
  ⟨⟨by decide, by decide⟩,
   (redirect_url_priority_chain (reqFor "uuid-fresh-0001") storeA 0 5 rrFresh custA bizA
     (by decide) (by decide) (by decide) (by decide) (by decide) (by decide)).1.1,
   ((redirect_url_priority_chain (reqFor "uuid-fresh-0001") storeA 0 5 rrFresh custA bizA
     (by decide) (by decide) (by decide) (by decide) (by decide) (by decide)).2
       (some "") none none).2.2.2 (by decide) (by decide) (by decide)⟩

/-- C4: on an active review request whose `clicked_at` is already set,
the handler performs a single write — one Event insert with
`isFirstClick = false`, `repeatClick = true` and `previousClickAt` equal
to the stored `clicked_at` — while the review-request table is left
entirely unchanged; the response is HTTP 200 with the repeat-visit
badge. -/
theorem repeat_click_single_event_frame (req : Req) (store : Store)
    (startTime now : Nat) (rr : ReviewRequest) (cust : Customer) (biz : Business)
    (prev : Nat)
    (hlen : 10 ≤ req.uuid.length)
    (hfind : store.reviewRequests.find? (fun r => r.tracking_uuid == req.uuid) = some rr)
    (hact : rr.is_active = true)
    (hopt : rr.status ≠ "OPTED_OUT")
    (hclick : rr.clicked_at = some prev)
    (hcust : store.customers.find? (fun c => c.id == rr.customer_id) = some cust)
    (hbiz : store.businesses.find? (fun b => b.id == rr.business_id) = some biz) :
    (handleTracking req dbAllOk store startTime now).store.reviewRequests =
      store.reviewRequests ∧
    (handleTracking req dbAllOk store startTime now).store.events =
      store.events ++ [mkRepeatEvent rr cust req] ∧
    (mkRepeatEvent rr cust req).metadata.isFirstClick = false ∧
    (mkRepeatEvent rr cust req).metadata.repeatClick = some true ∧
    (mkRepeatEvent rr cust req).metadata.previousClickAt = some prev ∧
    (handleTracking req dbAllOk store startTime now).status = 200 ∧
    (handleTracking req dbAllOk store startTime now).body =
      Page.redirectPage biz.name
        (resolveRedirectUrl biz.google_review_url rr.review_url biz.website)
        cust.first_name false ∧
    (handleTracking req dbAllOk store startTime now).dbOps =
      [DbOp.findUnique req.uuid, DbOp.createEvent] := by
  have hne := valid_length_cond hlen
  refine ⟨?_, ?_, ?_, ?_, ?_, ?_, ?_, ?_⟩
  · simp [handleTracking, if_neg hne, hfind, hact, hopt, hcust, hbiz, hclick, dbAllOk]
  · simp [handleTracking, if_neg hne, hfind, hact, hopt, hcust, hbiz, hclick, dbAllOk]
  · rfl
  · rfl
  · simp [mkRepeatEvent, hclick]
  · simp [handleTracking, if_neg hne, hfind, hact, hopt, hcust, hbiz, hclick, dbAllOk]
  · simp [handleTracking, if_neg hne, hfind, hact, hopt, hcust, hbiz, hclick, dbAllOk]
  · simp [handleTracking, if_neg hne, hfind, hact, hopt, hcust, hbiz, hclick, dbAllOk]

/-- C4 witness: a hit on the sample already-clicked request appends the
repeat event carrying `previousClickAt = 100` and leaves the
review-request table unchanged. -/
theorem repeat_click_single_event_frame_instance :
    (10 ≤ ("uuid-clicked-01" : String).length ∧
     storeA.reviewRequests.find? (fun r => r.tracking_uuid == "uuid-clicked-01") =
       some rrClicked ∧
     rrClicked.clicked_at = some 100) ∧
    (handleTracking (reqFor "uuid-clicked-01") dbAllOk storeA 0 5).store.reviewRequests =
      storeA.reviewRequests ∧
    (mkRepeatEvent rrClicked custA (reqFor "uuid-clicked-01")).metadata.previousClickAt =
      some 100 :=
  ⟨⟨by decide, by decide, by decide⟩,
   (repeat_click_single_event_frame (reqFor "uuid-clicked-01") storeA 0 5 rrClicked custA
     bizA 100 (by decide) (by decide) (by decide) (by decide) (by decide) (by decide)
     (by decide)).1,
   (repeat_click_single_event_frame (reqFor "uuid-clicked-01") storeA 0 5 rrClicked custA
     bizA 100 (by decide) (by decide) (by decide) (by decide) (by decide) (by decide)
     (by decide)).2.2.2.2.1⟩

theorem repeat_step (req : Req) (store : Store) (startTime now : Nat)
    (rr : ReviewRequest) (cust : Customer) (biz : Business) (prev : Nat)
    (hlen : 10 ≤ req.uuid.length)
    (hfind : store.reviewRequests.find? (fun r => r.tracking_uuid == req.uuid) = some rr)
    (hact : rr.is_active = true)
    (hopt : rr.status ≠ "OPTED_OUT")
    (hclick : rr.clicked_at = some prev)
    (hcust : store.customers.find? (fun c => c.id == rr.customer_id) = some cust)
    (hbiz : store.businesses.find? (fun b => b.id == rr.business_id) = some biz) :
    (handleTracking req dbAllOk store startTime now).store =
      { store with events := store.events ++ [mkRepeatEvent rr cust req] } := by
  have hne := valid_length_cond hlen
  simp [handleTracking, if_neg hne, hfind, hact, hopt, hcust, hbiz, hclick, dbAllOk]

theorem reviewRequests_unchanged_of_clicked (req : Req) (db : DbBehavior) (store : Store)
    (startTime now : Nat) (rr : ReviewRequest) (c : Nat)
    (hfind : store.reviewRequests.find? (fun r => r.tracking_uuid == req.uuid) = some rr)
    (hclick : rr.clicked_at = some c) :
    (handleTracking req db store startTime now).store.reviewRequests =
      store.reviewRequests := by
  by_cases hv : req.uuid = "" ∨ req.uuid.length < 10
  · simp [handleTracking, hv]
  · obtain ⟨le, ue, ece, ree⟩ := db
    rcases le with _ | e
    · simp only [handleTracking, if_neg hv, hfind, hclick]
      repeat' split
      all_goals first | rfl | simp_all
    · simp [handleTracking, if_neg hv]

theorem iterate_repeat_clicks (req : Req) (startTime now : Nat)
    (rr : ReviewRequest) (cust : Customer) (biz : Business) (c : Nat)
    (hlen : 10 ≤ req.uuid.length) (hact : rr.is_active = true)
    (hopt : rr.status ≠ "OPTED_OUT") (hclick : rr.clicked_at = some c) :
    ∀ (N : Nat) (store : Store),
      store.reviewRequests.find? (fun r => r.tracking_uuid == req.uuid) = some rr →
      store.customers.find? (fun x => x.id == rr.customer_id) = some cust →
      store.businesses.find? (fun b => b.id == rr.business_id) = some biz →
      (iterateClicks req dbAllOk startTime now N store).events.length =
        store.events.length + N ∧
      (iterateClicks req dbAllOk startTime now N store).reviewRequests =
        store.reviewRequests ∧
      (iterateClicks req dbAllOk startTime now N store).customers = store.customers ∧
      (iterateClicks req dbAllOk startTime now N store).businesses = store.businesses := by
  intro N
  induction N with
  | zero =>
    intro store h1 h2 h3
    simp [iterateClicks]
  | succ k ih =>
    intro store h1 h2 h3
    have hstep :=
      repeat_step req store startTime now rr cust biz c hlen h1 hact hopt hclick h2 h3
    have hrec := ih { store with events := store.events ++ [mkRepeatEvent rr cust req] }
      (by simpa using h1) (by simpa using h2) (by simpa using h3)
    simp only [iterateClicks, hstep]
    refine ⟨?_, ?_, ?_, ?_⟩
    · rw [hrec.1]; simp; omega
    · rw [hrec.2.1]
    · rw [hrec.2.2.1]
    · rw [hrec.2.2.2]

/-- C7: under sequential execution, `clicked_at` is set at most once:
when the row a valid identifier resolves to already has `clicked_at`
set, no further invocation for that identifier — whatever its request
metadata, Data Store behaviour or clock values — changes the
review-request table; and N further clicks with succeeding operations
append exactly N Event rows while leaving the review-request table
untouched. -/
theorem clicked_at_set_at_most_once (store : Store) (uuid : String)
    (rr : ReviewRequest) (c : Nat)
    (hfind : store.reviewRequests.find? (fun r => r.tracking_uuid == uuid) = some rr)
    (hclick : rr.clicked_at = some c) :
    (∀ (req : Req) (db : DbBehavior) (startTime now : Nat), req.uuid = uuid →
      (handleTracking req db store startTime now).store.reviewRequests =
        store.reviewRequests) ∧
    (∀ (req : Req) (startTime now N : Nat) (cust : Customer) (biz : Business),
      req.uuid = uuid → 10 ≤ uuid.length →
      rr.is_active = true → rr.status ≠ "OPTED_OUT" →
      store.customers.find? (fun x => x.id == rr.customer_id) = some cust →
      store.businesses.find? (fun b => b.id == rr.business_id) = some biz →
      (iterateClicks req dbAllOk startTime now N store).events.length =
        store.events.length + N ∧
      (iterateClicks req dbAllOk startTime now N store).reviewRequests =
        store.reviewRequests) := by
  constructor
  · intro req db startTime now hequ
    subst hequ
    exact reviewRequests_unchanged_of_clicked req db store startTime now rr c hfind hclick
  · intro req startTime now N cust biz hequ hlen hact hopt hcust hbiz
    subst hequ
    have h := iterate_repeat_clicks req startTime now rr cust biz c hlen hact hopt hclick
      N store hfind hcust hbiz
    exact ⟨h.1, h.2.1⟩

/-- C7 witness: three further clicks on the sample already-clicked
request append exactly three events and leave the review-request table
unchanged. -/
theorem clicked_at_set_at_most_once_instance :
    (storeA.reviewRequests.find? (fun r => r.tracking_uuid == "uuid-clicked-01") =
       some rrClicked ∧
     rrClicked.clicked_at = some 100) ∧
    (iterateClicks (reqFor "uuid-clicked-01") dbAllOk 0 5 3 storeA).events.length =
      storeA.events.length + 3 ∧
    (iterateClicks (reqFor "uuid-clicked-01") dbAllOk 0 5 3 storeA).reviewRequests =
      storeA.reviewRequests :=
  ⟨⟨by decide, by decide⟩,
   (clicked_at_set_at_most_once storeA "uuid-clicked-01" rrClicked 100
     (by decide) (by decide)).2 (reqFor "uuid-clicked-01") 0 5 3 custA bizA
     (by decide) (by decide) (by decide) (by decide) (by decide) (by decide)⟩

/-- C8: a Data Store rejection at any of the four call sites — lookup,
transactional update, transactional event insert, standalone repeat
insert — is caught at the handler boundary: the response is HTTP 500
whose body is the fixed generic error page (three constant strings,
independent of the raised message), the store is unchanged, and the
error-level log carries the originating identifier, the raised message
and the elapsed time. -/
theorem handler_catch_returns_generic_500 (req : Req) (store : Store)
    (startTime now : Nat) (e : String)
    (hlen : 10 ≤ req.uuid.length) :
    (∀ ue ece ree : Option String,
      handleTracking req ⟨some e, ue, ece, ree⟩ store startTime now =
        { status := 500, body := genericErrorBody, store := store,
          dbOps := [DbOp.findUnique req.uuid],
          logs := [LogEntry.trackingRequestReceived req.uuid,
                   LogEntry.trackingError req.uuid e (now - startTime)] }) ∧
    (∀ (rr : ReviewRequest) (cust : Customer) (biz : Business) (ece ree : Option String),
      store.reviewRequests.find? (fun r => r.tracking_uuid == req.uuid) = some rr →
      rr.is_active = true → rr.status ≠ "OPTED_OUT" → rr.clicked_at = none →
      store.customers.find? (fun x => x.id == rr.customer_id) = some cust →
      store.businesses.find? (fun b => b.id == rr.business_id) = some biz →
      handleTracking req ⟨none, some e, ece, ree⟩ store startTime now =
        { status := 500, body := genericErrorBody, store := store,
          dbOps := [DbOp.findUnique req.uuid, DbOp.txUpdateReviewRequest rr.id],
          logs := [LogEntry.trackingRequestReceived req.uuid,
                   LogEntry.trackingError req.uuid e (now - startTime)] }) ∧
    (∀ (rr : ReviewRequest) (cust : Customer) (biz : Business) (ree : Option String),
      store.reviewRequests.find? (fun r => r.tracking_uuid == req.uuid) = some rr →
      rr.is_active = true → rr.status ≠ "OPTED_OUT" → rr.clicked_at = none →
      store.customers.find? (fun x => x.id == rr.customer_id) = some cust →
      store.businesses.find? (fun b => b.id == rr.business_id) = some biz →
      handleTracking req ⟨none, none, some e, ree⟩ store startTime now =
        { status := 500, body := genericErrorBody, store := store,
          dbOps := [DbOp.findUnique req.uuid, DbOp.txUpdateReviewRequest rr.id,
                    DbOp.txCreateEvent],
          logs := [LogEntry.trackingRequestReceived req.uuid,
                   LogEntry.trackingError req.uuid e (now - startTime)] }) ∧
    (∀ (rr : ReviewRequest) (cust : Customer) (biz : Business) (prev : Nat)
        (ue ece : Option String),
      store.reviewRequests.find? (fun r => r.tracking_uuid == req.uuid) = some rr →
      rr.is_active = true → rr.status ≠ "OPTED_OUT" → rr.clicked_at = some prev →
      store.customers.find? (fun x => x.id == rr.customer_id) = some cust →
      store.businesses.find? (fun b => b.id == rr.business_id) = some biz →
      handleTracking req ⟨none, ue, ece, some e⟩ store startTime now =
        { status := 500, body := genericErrorBody, store := store,
          dbOps := [DbOp.findUnique req.uuid, DbOp.createEvent],
          logs := [LogEntry.trackingRequestReceived req.uuid,
                   LogEntry.trackingError req.uuid e (now - startTime)] }) := by
  have hne := valid_length_cond hlen
  refine ⟨?_, ?_, ?_, ?_⟩
  · intro ue ece ree
    simp [handleTracking, if_neg hne]
  · intro rr cust biz ece ree hfind hact hopt hclick hcust hbiz
    simp [handleTracking, if_neg hne, hfind, hact, hopt, hclick, hcust, hbiz]
  · intro rr cust biz ree hfind hact hopt hclick hcust hbiz
    simp [handleTracking, if_neg hne, hfind, hact, hopt, hclick, hcust, hbiz]
  · intro rr cust biz prev ue ece hfind hact hopt hclick hcust hbiz
    simp [handleTracking, if_neg hne, hfind, hact, hopt, hclick, hcust, hbiz]

/-- C8 witness: a rejected lookup on a valid-length identifier yields the
500 result with the generic page and the error log entry carrying the
identifier and elapsed time. -/
theorem handler_catch_returns_generic_500_instance :
    10 ≤ ("uuid-fresh-0001" : String).length ∧
    handleTracking (reqFor "uuid-fresh-0001") ⟨some "db down", none, none, none⟩
        storeA 0 7 =
      { status := 500, body := genericErrorBody, store := storeA,
        dbOps := [DbOp.findUnique "uuid-fresh-0001"],
        logs := [LogEntry.trackingRequestReceived "uuid-fresh-0001",
                 LogEntry.trackingError "uuid-fresh-0001" "db down" 7] } :=
  ⟨by decide,
   (handler_catch_returns_generic_500 (reqFor "uuid-fresh-0001") storeA 0 7 "db down"
     (by decide)).1 none none none⟩

/-- C9: when client construction fails, the process installs the mock
client, every operation of which — raw query, findUnique, update, event
create, transaction — rejects with the same error, so that any route
reaching the Data Store answers HTTP 500 with the generic page through
the handler's catch instead of crashing. -/
theorem prisma_stub_degrades_to_500 :
    installPrisma none = mockPrisma ∧
    (mockPrisma.queryRaw = Except.error prismaUnavailableMsg ∧
     mockPrisma.reviewRequestFindUnique = Except.error prismaUnavailableMsg ∧
     mockPrisma.reviewRequestUpdate = Except.error prismaUnavailableMsg ∧
     mockPrisma.eventCreate = Except.error prismaUnavailableMsg ∧
     mockPrisma.transactionRun = Except.error prismaUnavailableMsg) ∧
    (∀ (req : Req) (store : Store) (startTime now : Nat), 10 ≤ req.uuid.length →
      (handleTracking req (dbBehaviorOf (installPrisma none))
          store startTime now).status = 500 ∧
      (handleTracking req (dbBehaviorOf (installPrisma none))
          store startTime now).body = genericErrorBody) := by
  refine ⟨rfl, ⟨rfl, rfl, rfl, rfl, rfl⟩, ?_⟩
  intro req store startTime now hlen
  have hne := valid_length_cond hlen
  constructor
  · simp [handleTracking, if_neg hne, dbBehaviorOf, installPrisma, mockPrisma, errOf]
  · simp [handleTracking, if_neg hne, dbBehaviorOf, installPrisma, mockPrisma, errOf]

/-- C9 witness: with the stub installed, a concrete valid-length request
is answered 500 with the generic page. -/
theorem prisma_stub_degrades_to_500_instance :
    10 ≤ ("uuid-fresh-0001" : String).length ∧
    (handleTracking (reqFor "uuid-fresh-0001") (dbBehaviorOf (installPrisma none))
        storeA 0 5).status = 500 :=
  ⟨by decide,
   (prisma_stub_degrades_to_500.2.2 (reqFor "uuid-fresh-0001") storeA 0 5 (by decide)).1⟩

/-- C10 counterexample: with an X-Forwarded-For header present but
empty and X-Real-IP carrying "198.51.100.9", the handler records
ipAddress "198.51.100.9" — not the first *present* header value (the
empty string) the claim prescribes. -/
theorem client_metadata_literal_cex :
    (handleTracking reqEmptyXff dbAllOk storeA 0 5).store.events.map
        (fun ev => ev.metadata.ipAddress) ≠ [claimIpAddress reqEmptyXff] ∧
    (handleTracking reqEmptyXff dbAllOk storeA 0 5).store.events.map
        (fun ev => ev.metadata.ipAddress) = ["198.51.100.9"] ∧
    claimIpAddress reqEmptyXff = "" := by
  refine ⟨by decide, by decide, by decide⟩

/-- C10 (amended): the recorded client metadata is derived
deterministically with JavaScript-truthiness defaulting — userAgent is
the User-Agent header when present and non-empty, else "unknown";
ipAddress is the first present and non-empty of X-Forwarded-For,
X-Real-IP and the transport client IP, else "unknown" — and on a first
click both the inserted Event metadata and the recorded click_metadata
carry exactly these values. -/
theorem client_metadata_nonempty_defaulting (req : Req) (store : Store)
    (startTime now : Nat) (rr : ReviewRequest) (cust : Customer) (biz : Business)
    (hlen : 10 ≤ req.uuid.length)
    (hfind : store.reviewRequests.find? (fun r => r.tracking_uuid == req.uuid) = some rr)
    (hact : rr.is_active = true)
    (hopt : rr.status ≠ "OPTED_OUT")
    (hclick : rr.clicked_at = none)
    (hcust : store.customers.find? (fun c => c.id == rr.customer_id) = some cust)
    (hbiz : store.businesses.find? (fun b => b.id == rr.business_id) = some biz) :
    (∀ r : Req, userAgentOf r = claimUserAgentAmended r ∧
      ipAddressOf r = claimIpAddressAmended r) ∧
    (handleTracking req dbAllOk store startTime now).store.events.map
        (fun ev => (ev.metadata.userAgent, ev.metadata.ipAddress)) =
      store.events.map (fun ev => (ev.metadata.userAgent, ev.metadata.ipAddress)) ++
        [(claimUserAgentAmended req, claimIpAddressAmended req)] ∧
    (mkClickMetadata req startTime now).userAgent = claimUserAgentAmended req ∧
    (mkClickMetadata req startTime now).ipAddress = claimIpAddressAmended req := by
  have hne := valid_length_cond hlen
  have hpure : ∀ r : Req, userAgentOf r = claimUserAgentAmended r ∧
      ipAddressOf r = claimIpAddressAmended r := by
    intro r
    constructor
    · cases h : r.userAgentHeader with
      | none => simp [userAgentOf, jsOrStr, claimUserAgentAmended, h]
      | some s =>
        by_cases hs : s = "" <;>
          simp [userAgentOf, jsOrStr, claimUserAgentAmended, h, hs]
    · rcases h1 : r.xForwardedFor with _ | s1 <;> rcases h2 : r.xRealIp with _ | s2 <;>
        rcases h3 : r.reqIp with _ | s3 <;>
        simp only [ipAddressOf, jsOrStr, jsOrOptStr, claimIpAddressAmended,
          firstNonEmpty, h1, h2, h3] <;>
        split_ifs <;> simp_all [jsOrStr, firstNonEmpty]
  refine ⟨hpure, ?_, ?_, ?_⟩
  · have hred :
        (handleTracking req dbAllOk store startTime now).store.events =
          store.events ++ [mkFirstClickEvent rr cust req] := by
      simp [handleTracking, if_neg hne, hfind, hact, hopt, hcust, hbiz, hclick, dbAllOk]
    rw [hred, List.map_append]
    simp [mkFirstClickEvent, (hpure req).1, (hpure req).2]
  · simp [mkClickMetadata, (hpure req).1]
  · simp [mkClickMetadata, (hpure req).2]

/-- C10 witness: at the counterexample request the amended rule holds —
the recorded ipAddress is the first present-and-non-empty value. -/
theorem client_metadata_nonempty_defaulting_instance :
    (10 ≤ reqEmptyXff.uuid.length ∧ rrFresh.clicked_at = none) ∧
    (handleTracking reqEmptyXff dbAllOk storeA 0 5).store.events.map
        (fun ev => (ev.metadata.userAgent, ev.metadata.ipAddress)) =
      storeA.events.map (fun ev => (ev.metadata.userAgent, ev.metadata.ipAddress)) ++
        [(claimUserAgentAmended reqEmptyXff, claimIpAddressAmended reqEmptyXff)] :=
  ⟨⟨by decide, by decide⟩,
   (client_metadata_nonempty_defaulting reqEmptyXff storeA 0 5 rrFresh custA bizA
     (by decide) (by decide) (by decide) (by decide) (by decide) (by decide)
     (by decide)).2.1⟩

end Tracking
